import Mathlib

/-!
Verification of the `toastx/rpc-proxy` Cloudflare worker (`src/index.ts`).

The core of the worker is `handleWebSocket`: a bidirectional relay between one
client-facing WebSocket (`server`) and one upstream WebSocket (`upstream`),
with a bounded pre-ready buffer, a single-shot buffer deadline timer, a
recurring keepalive timer, and close/error propagation.

We embed the relay as a single-threaded reactive state machine: each closure
registered in `handleWebSocket` becomes a pure state-transition function, and
a session run is a fold of the `step` function over a list of externally
delivered events.  Fallible `send` calls carry an explicit success flag
(`sendOk`); the flush loop in the `open` handler carries an optional index of
the first failing send.  Socket ready states are tracked explicitly, updated
at event delivery and at local `close()` calls, matching the serialized
per-session semantics of the worker runtime.
-/

namespace RpcProxy

/-- Mirrors `MAX_BUFFER_SIZE = 10` in src/index.ts. -/
def MAX_BUFFER_SIZE : Nat := 10

/-- Mirrors `BUFFER_TIMEOUT_MS = 10000` in src/index.ts (wall-clock duration;
    only the firing of the timer is modelled, not real time). -/
def BUFFER_TIMEOUT_MS : Nat := 10000

/-- Mirrors `KEEPALIVE_INTERVAL_MS = 20000` in src/index.ts. -/
def KEEPALIVE_INTERVAL_MS : Nat := 20000

/-- RFC 6455 close code 1008 ("Policy Violation"), the code a
    policy-violation-style close would use. -/
def policyViolationCloseCode : Nat := 1008

/-- RFC 6455 close code 1011 ("Internal Error" / server error), the code the
    worker actually passes to every fatal `close(...)` call. -/
def internalErrorCloseCode : Nat := 1011

/-- An opaque WebSocket data frame: `event.data` is either a text payload or a
    binary payload (`string | ArrayBuffer` in the source). -/
inductive Frame
  | text : String → Frame
  | binary : List Nat → Frame
deriving DecidableEq

/-- A frame as delivered to the upstream socket: either a relayed client frame
    or the synthetic `KEEPALIVE_MESSAGE` control frame. -/
inductive UpFrame
  | client : Frame → UpFrame
  | keepalive : UpFrame
deriving DecidableEq

/-- The argument shape of a `close()` call: `close()` with no arguments
    (graceful) or `close(code, reason)`. -/
inductive CloseKind
  | graceful : CloseKind
  | coded : Nat → String → CloseKind
deriving DecidableEq

/-- WebSocket ready states relevant to the relay (`CLOSING` is collapsed into
    `closed`: in both, `readyState === WebSocket.OPEN` is false and the socket
    accepts no further local `close` bookkeeping we rely on). -/
inductive ReadyState
  | connecting : ReadyState
  | opened : ReadyState
  | closed : ReadyState
deriving DecidableEq

/-- The per-session mutable state of `handleWebSocket`, plus the observable
    history needed to state the claims: the frames delivered to each peer and
    the first local `close(...)` call made on each socket.  `cleanupRan` is a
    ghost flag recording that the `cleanup` teardown routine has executed at
    least once; it has no influence on behaviour. -/
structure SessionState where
  bufferedData : List Frame
  bufferTimeout : Bool
  isUpstreamConnected : Bool
  keepaliveTimer : Bool
  upstreamState : ReadyState
  serverState : ReadyState
  upstreamSent : List UpFrame
  serverSent : List Frame
  serverClosedWith : Option CloseKind
  upstreamClosedWith : Option CloseKind
  cleanupRan : Bool
deriving DecidableEq

/-- Session state right after `handleWebSocket` returns its 101 response:
    the accepted server socket is live, the upstream socket is connecting,
    the buffer is empty and no timer is armed. -/
def initState : SessionState :=
  { bufferedData := []
    bufferTimeout := false
    isUpstreamConnected := false
    keepaliveTimer := false
    upstreamState := ReadyState.connecting
    serverState := ReadyState.opened
    upstreamSent := []
    serverSent := []
    serverClosedWith := none
    upstreamClosedWith := none
    cleanupRan := false }

/-- Mirrors `clearKeepalive` (src/index.ts:123-128). -/
def clearKeepalive (s : SessionState) : SessionState :=
  { s with keepaliveTimer := false }

/-- Mirrors `clearBufferTimeout` (src/index.ts:130-135). -/
def clearBufferTimeout (s : SessionState) : SessionState :=
  { s with bufferTimeout := false }

/-- Mirrors the timer-arming effect of `startBufferTimeout` (src/index.ts:137-139):
    any previous timer is replaced, leaving exactly one pending timer. -/
def startBufferTimeout (s : SessionState) : SessionState :=
  { s with bufferTimeout := true }

/-- Mirrors the timer-arming effect of `startKeepalive` (src/index.ts:109-110). -/
def startKeepalive (s : SessionState) : SessionState :=
  { s with keepaliveTimer := true }

/-- Mirrors `cleanup` (src/index.ts:149-153): clear both timers and the
    buffer.  Also sets the ghost `cleanupRan` flag. -/
def cleanup (s : SessionState) : SessionState :=
  { s with keepaliveTimer := false
           bufferTimeout := false
           bufferedData := []
           cleanupRan := true }

/-- A `try { server.close(...) } catch { }` call: a no-op on a socket that is
    already closed, otherwise it closes the socket and records the first
    close-call arguments. -/
def closeServer (k : CloseKind) (s : SessionState) : SessionState :=
  if s.serverState = ReadyState.closed then s
  else
    { s with serverState := ReadyState.closed
             serverClosedWith := if s.serverClosedWith = none then some k else s.serverClosedWith }

/-- A `try { upstream.close(...) } catch { }` call, as `closeServer`. -/
def closeUpstream (k : CloseKind) (s : SessionState) : SessionState :=
  if s.upstreamState = ReadyState.closed then s
  else
    { s with upstreamState := ReadyState.closed
             upstreamClosedWith := if s.upstreamClosedWith = none then some k else s.upstreamClosedWith }

/-- The `upstream.addEventListener('open', ...)` handler (src/index.ts:156-174).
    The socket has just become OPEN; the handler sets `isUpstreamConnected`,
    clears the buffer deadline, flushes the buffer in order (the optional
    `failIdx` is the index at which `upstream.send` throws, if any; a throw
    aborts the loop, runs `cleanup` and closes the client with
    `(1011, "upstream_ws_error")`, skipping `startKeepalive`), and on success
    clears the buffer and starts the keepalive. -/
def upstreamOpenHandler (failIdx : Option Nat) (s : SessionState) : SessionState :=
  let s1 : SessionState :=
    { s with isUpstreamConnected := true
             upstreamState := ReadyState.opened
             bufferTimeout := false }
  if 0 < s1.bufferedData.length then
    match failIdx with
    | some i =>
      if i < s1.bufferedData.length then
        closeServer (CloseKind.coded 1011 "upstream_ws_error")
          (cleanup
            { s1 with upstreamSent := s1.upstreamSent ++ (s1.bufferedData.take i).map UpFrame.client })
      else
        startKeepalive
          { s1 with upstreamSent := s1.upstreamSent ++ s1.bufferedData.map UpFrame.client
                    bufferedData := [] }
    | none =>
      startKeepalive
        { s1 with upstreamSent := s1.upstreamSent ++ s1.bufferedData.map UpFrame.client
                  bufferedData := [] }
  else
    startKeepalive s1

/-- The `server.addEventListener('message', ...)` handler (src/index.ts:177-198).
    Live forwarding when `isUpstreamConnected && upstream.readyState === OPEN`
    (a failing send is fatal: `cleanup` + `close(1011, "upstream_ws_error")`);
    otherwise buffer with overflow check (`cleanup` +
    `close(1011, "buffer_overflow")` on overflow), arming the deadline timer
    when the buffer transitions from empty to non-empty. -/
def serverMessageHandler (f : Frame) (sendOk : Bool) (s : SessionState) : SessionState :=
  if s.isUpstreamConnected = true ∧ s.upstreamState = ReadyState.opened then
    if sendOk = true then
      { s with upstreamSent := s.upstreamSent ++ [UpFrame.client f] }
    else
      closeServer (CloseKind.coded 1011 "upstream_ws_error") (cleanup s)
  else
    if MAX_BUFFER_SIZE ≤ s.bufferedData.length then
      closeServer (CloseKind.coded 1011 "buffer_overflow") (cleanup s)
    else
      { s with bufferTimeout := if s.bufferedData.length = 0 then true else s.bufferTimeout
               bufferedData := s.bufferedData ++ [f] }

/-- The `upstream.addEventListener('message', ...)` handler (src/index.ts:201-210).
    Forward to the client only if `server.readyState === OPEN`; a failing send
    runs `cleanup` and closes the upstream with `(1011, "client_ws_error")`;
    a frame arriving while the client is not open is silently dropped. -/
def upstreamMessageHandler (f : Frame) (sendOk : Bool) (s : SessionState) : SessionState :=
  if s.serverState = ReadyState.opened then
    if sendOk = true then
      { s with serverSent := s.serverSent ++ [f] }
    else
      closeUpstream (CloseKind.coded 1011 "client_ws_error") (cleanup s)
  else s

/-- The body of the `setTimeout` callback armed by `startBufferTimeout`
    (src/index.ts:139-146).  Firing consumes the single-shot timer; if the
    buffer is non-empty and the upstream is still not connected, the buffer is
    discarded and the client is closed with
    `(1011, "upstream_connection_timeout")`; otherwise nothing happens. -/
def bufferTimeoutFire (s : SessionState) : SessionState :=
  if s.bufferTimeout = true then
    let s1 : SessionState := { s with bufferTimeout := false }
    if 0 < s1.bufferedData.length ∧ s1.isUpstreamConnected = false then
      closeServer (CloseKind.coded 1011 "upstream_connection_timeout")
        { s1 with bufferedData := [] }
    else s1
  else s

/-- The body of the `setInterval` callback armed by `startKeepalive`
    (src/index.ts:110-120).  A tick of an armed timer sends the keepalive
    frame when the upstream socket is OPEN; a throwing send, or an upstream
    that is not OPEN, disarms the keepalive and nothing else. -/
def keepaliveTick (sendOk : Bool) (s : SessionState) : SessionState :=
  if s.keepaliveTimer = true then
    if s.upstreamState = ReadyState.opened then
      if sendOk = true then
        { s with upstreamSent := s.upstreamSent ++ [UpFrame.keepalive] }
      else clearKeepalive s
    else clearKeepalive s
  else s

/-- The `server.addEventListener('close', ...)` handler (src/index.ts:213-216):
    the client connection has closed; run `cleanup`, then `upstream.close()`
    (graceful, wrapped in try/catch). -/
def serverCloseHandler (s : SessionState) : SessionState :=
  closeUpstream CloseKind.graceful
    (cleanup { s with serverState := ReadyState.closed })

/-- The `server.addEventListener('error', ...)` handler (src/index.ts:225-228):
    run `cleanup`, then `upstream.close(1011, "client_ws_error")`. -/
def serverErrorHandler (s : SessionState) : SessionState :=
  closeUpstream (CloseKind.coded 1011 "client_ws_error")
    (cleanup { s with serverState := ReadyState.closed })

/-- The `upstream.addEventListener('close', ...)` handler (src/index.ts:218-222):
    set `isUpstreamConnected = false`, run `cleanup`, then `server.close()`. -/
def upstreamCloseHandler (s : SessionState) : SessionState :=
  closeServer CloseKind.graceful
    (cleanup { s with isUpstreamConnected := false
                      upstreamState := ReadyState.closed })

/-- The `upstream.addEventListener('error', ...)` handler (src/index.ts:230-234):
    set `isUpstreamConnected = false`, run `cleanup`, then
    `server.close(1011, "upstream_ws_error")`. -/
def upstreamErrorHandler (s : SessionState) : SessionState :=
  closeServer (CloseKind.coded 1011 "upstream_ws_error")
    (cleanup { s with isUpstreamConnected := false
                      upstreamState := ReadyState.closed })

/-- Externally delivered events of one relay session.  Fallible sends carry
    their outcome; the upstream `open` event carries the index of the first
    failing send of the flush loop, if any. -/
inductive Event
  | upstreamOpen : Option Nat → Event
  | clientMsg : Frame → Bool → Event
  | upstreamMsg : Frame → Bool → Event
  | bufferDeadline : Event
  | keepalive : Bool → Event
  | clientClose : Event
  | clientError : Event
  | upstreamClose : Event
  | upstreamError : Event
deriving DecidableEq

/-- One serialized event delivery.  Guards encode what the transport can
    deliver: an `open` event only fires on a still-connecting upstream (a
    locally closed connecting socket never opens), and `message` events are
    only delivered by a socket that is currently open. -/
def step (s : SessionState) (e : Event) : SessionState :=
  match e with
  | Event.upstreamOpen failIdx =>
      if s.upstreamState = ReadyState.connecting then upstreamOpenHandler failIdx s else s
  | Event.clientMsg f ok =>
      if s.serverState = ReadyState.opened then serverMessageHandler f ok s else s
  | Event.upstreamMsg f ok =>
      if s.upstreamState = ReadyState.opened then upstreamMessageHandler f ok s else s
  | Event.bufferDeadline => bufferTimeoutFire s
  | Event.keepalive ok => keepaliveTick ok s
  | Event.clientClose => serverCloseHandler s
  | Event.clientError => serverErrorHandler s
  | Event.upstreamClose => upstreamCloseHandler s
  | Event.upstreamError => upstreamErrorHandler s

/-- A whole session: fold the event list over `step` from the initial state. -/
def run (es : List Event) : SessionState :=
  es.foldl step initState

/-- The client frames contributed by one event: exactly the payload of a
    client `message` event. -/
def evFrames : Event → List Frame
  | Event.clientMsg f _ => [f]
  | _ => []

/-- All frames the client sent during a trace, in order. -/
def clientFrames : List Event → List Frame
  | [] => []
  | e :: es => evFrames e ++ clientFrames es

/-- The client frames among the frames delivered to the upstream, in delivery
    order (keepalive control frames are not client frames). -/
def deliveredClients (l : List UpFrame) : List Frame :=
  l.filterMap fun u =>
    match u with
    | UpFrame.client f => some f
    | UpFrame.keepalive => none

/-! ### The CORS helper (`getCorsHeaders`, src/index.ts:280-293)

The JS function builds an object with the fixed keys
`Access-Control-Allow-Methods`, `Access-Control-Allow-Headers` and
`Access-Control-Allow-Origin`; we model the object as a record with those
three fields. -/

/-- The header object computed by `getCorsHeaders`. -/
structure CorsHeaders where
  allowMethods : String
  allowHeaders : String
  allowOrigin : String
deriving DecidableEq

/-- Mirrors `getCorsHeaders(request, env)`: `corsAllowOrigin` is
    `env.CORS_ALLOW_ORIGIN` (optional), `origin` is the request's `Origin`
    header (optional).  The allow-list is the comma-split, trimmed
    configuration string; the origin is echoed exactly when it is a member,
    and every other case falls back to the wildcard. -/
def getCorsHeaders (corsAllowOrigin : Option String) (origin : Option String) : CorsHeaders :=
  let supportedDomains := corsAllowOrigin.map fun cfg => (cfg.splitOn ",").map fun d => d.trim
  let base : CorsHeaders :=
    { allowMethods := "GET, HEAD, POST, PUT, OPTIONS"
      allowHeaders := "Content-Type, Authorization"
      allowOrigin := "*" }
  match supportedDomains, origin with
  | some doms, some o => if o ∈ doms then { base with allowOrigin := o } else base
  | _, _ => base

/-! ### Small helper lemmas -/

/-- A list followed by anything is extended by a list prefix relation. -/
theorem pre_of_app {α : Type} (l t : List α) : l <+: l ++ t :=
  ⟨t, rfl⟩

/-- Extending the longer list on the right preserves being a prefix of it. -/
theorem pre_extend {α : Type} {l m : List α} (h : l <+: m) (t : List α) : l <+: m ++ t := by
  obtain ⟨r, rfl⟩ := h
  exact ⟨r ++ t, by simp⟩

/-- Taking an initial segment of the appended part keeps the prefix relation. -/
theorem pre_take {α : Type} (d b : List α) (i : Nat) : d ++ b.take i <+: d ++ b :=
  ⟨b.drop i, by simp⟩

@[simp]
theorem deliveredClients_append (a b : List UpFrame) :
    deliveredClients (a ++ b) = deliveredClients a ++ deliveredClients b := by
  simp [deliveredClients]

@[simp]
theorem deliveredClients_mapClient (l : List Frame) :
    deliveredClients (l.map UpFrame.client) = l := by
  induction l with
  | nil => rfl
  | cons f l ih => simp [deliveredClients] at ih ⊢; exact ih

@[simp]
theorem deliveredClients_take_mapClient (l : List Frame) (i : Nat) :
    deliveredClients (List.take i (l.map UpFrame.client)) = l.take i := by
  rw [← List.map_take]
  exact deliveredClients_mapClient _

@[simp]
theorem deliveredClients_clientOne (f : Frame) :
    deliveredClients [UpFrame.client f] = [f] := rfl

@[simp]
theorem deliveredClients_keepaliveOne :
    deliveredClients [UpFrame.keepalive] = ([] : List Frame) := rfl

@[simp]
theorem deliveredClients_nil : deliveredClients [] = ([] : List Frame) := rfl

theorem clientFrames_append (a b : List Event) :
    clientFrames (a ++ b) = clientFrames a ++ clientFrames b := by
  induction a with
  | nil => rfl
  | cons e a ih => simp [clientFrames, ih]

/-- Preservation of a state predicate along a whole fold of `step`. -/
theorem fold_pres (P : SessionState → Prop)
    (hstep : ∀ s e, P s → P (step s e)) :
    ∀ (es : List Event) (s : SessionState), P s → P (es.foldl step s) := by
  intro es
  induction es with
  | nil => intro s h; exact h
  | cons e es ih => intro s h; exact ih _ (hstep s e h)

/-! ### C8: teardown is idempotent -/

/-- C8: teardown is idempotent and takes effect at most once: running
    `cleanup` a second time on the same session state is a no-op, and a second
    `close(...)` call on either socket (with any arguments) leaves the state
    exactly as after the first, so the full teardown effect — timers cleared,
    queue cleared, each connection closed — happens at most once. -/
theorem teardown_idempotent (s : SessionState) (k k' : CloseKind) :
    cleanup (cleanup s) = cleanup s ∧
    closeServer k' (closeServer k s) = closeServer k s ∧
    closeUpstream k' (closeUpstream k s) = closeUpstream k s := by
  refine ⟨rfl, ?_, ?_⟩
  · by_cases h : s.serverState = ReadyState.closed <;> simp [closeServer, h]
  · by_cases h : s.upstreamState = ReadyState.closed <;> simp [closeUpstream, h]

/-! ### C10: CORS origin fallback -/

/-- C10: with a configured allow-list, the `Access-Control-Allow-Origin`
    header is the request origin exactly when that origin is a member of the
    comma-split, trimmed allow-list, and the wildcard `*` otherwise — in
    particular an absent origin, an unlisted origin, or an absent
    configuration all yield `*`, never an omitted or denying header. -/
theorem cors_allow_origin (l o : String) :
    (getCorsHeaders (some l) (some o)).allowOrigin
        = (if o ∈ (l.splitOn ",").map (fun d => d.trim) then o else "*") ∧
    (getCorsHeaders (some l) none).allowOrigin = "*" ∧
    (getCorsHeaders none (some o)).allowOrigin = "*" ∧
    (getCorsHeaders none none).allowOrigin = "*" := by
  refine ⟨?_, rfl, rfl, rfl⟩
  by_cases h : o ∈ (l.splitOn ",").map (fun d => d.trim) <;> simp [getCorsHeaders, h]

/-! ### C2: buffer overflow handling -/

/-- C2 counterexample: sending `MAX_BUFFER_SIZE + 1 = 11` client frames before
    the upstream opens does abort the session with reason `"buffer_overflow"`
    and delivers nothing upstream, but the close code the code passes is 1011
    (the server-error code), not a policy-violation-style code (1008): the
    claim's "policy-violation-style close code" is false of the code. -/
theorem overflow_close_code_cex :
    (run (List.replicate 11 (Event.clientMsg (Frame.binary []) true))).serverClosedWith
        = some (CloseKind.coded internalErrorCloseCode "buffer_overflow") ∧
    internalErrorCloseCode ≠ policyViolationCloseCode ∧
    (run (List.replicate 11 (Event.clientMsg (Frame.binary []) true))).upstreamSent = [] := by
  refine ⟨by decide, by decide, by decide⟩

/-- C2 amended: if a client frame arrives while the upstream is not ready (or
    not open) and the pending queue already holds `MAX_BUFFER_SIZE` frames,
    the session is aborted by closing the client connection with the
    server-error close code 1011 and the reason string `"buffer_overflow"`;
    the overflowing frame is never delivered to the upstream (the upstream
    send log is unchanged) and no queued frame is partially delivered (the
    queue is discarded whole). -/
theorem overflow_aborts (s : SessionState) (f : Frame) (ok : Bool)
    (hserver : s.serverState = ReadyState.opened)
    (hnc : s.serverClosedWith = none)
    (hfull : MAX_BUFFER_SIZE ≤ s.bufferedData.length)
    (hnotlive : ¬ (s.isUpstreamConnected = true ∧ s.upstreamState = ReadyState.opened)) :
    (step s (Event.clientMsg f ok)).serverClosedWith
        = some (CloseKind.coded 1011 "buffer_overflow") ∧
    (step s (Event.clientMsg f ok)).upstreamSent = s.upstreamSent ∧
    (step s (Event.clientMsg f ok)).bufferedData = [] ∧
    (step s (Event.clientMsg f ok)).serverState = ReadyState.closed := by
  simp only [step, hserver, if_pos, serverMessageHandler]
  rw [if_neg hnotlive, if_pos hfull]
  simp [closeServer, cleanup, hserver, hnc]

/-- Witness for `overflow_aborts` at a concrete full-queue state. -/
theorem overflow_aborts_witness :
    (step { initState with bufferedData := List.replicate 10 (Frame.binary []) }
        (Event.clientMsg (Frame.text "x") true)).serverClosedWith
      = some (CloseKind.coded 1011 "buffer_overflow") :=
  (overflow_aborts { initState with bufferedData := List.replicate 10 (Frame.binary []) }
    (Frame.text "x") true rfl rfl (by decide) (by decide)).1

/-! ### C3: buffer deadline firing -/

/-- C3: when the armed buffer-deadline timer fires with a non-empty queue and
    a still-not-ready upstream, the queued frames are discarded and the client
    connection is closed with code 1011 and reason
    `"upstream_connection_timeout"`; if at fire time the queue is empty or the
    upstream is ready, firing changes nothing beyond consuming the single-shot
    timer (no close, no discard, no send). -/
theorem buffer_deadline_fire (s : SessionState)
    (harm : s.bufferTimeout = true) :
    ((s.bufferedData ≠ [] ∧ s.isUpstreamConnected = false ∧
        s.serverState = ReadyState.opened ∧ s.serverClosedWith = none) →
      (bufferTimeoutFire s).bufferedData = [] ∧
      (bufferTimeoutFire s).serverClosedWith
          = some (CloseKind.coded 1011 "upstream_connection_timeout") ∧
      (bufferTimeoutFire s).serverState = ReadyState.closed) ∧
    ((s.bufferedData = [] ∨ s.isUpstreamConnected = true) →
      bufferTimeoutFire s = { s with bufferTimeout := false }) := by
  constructor
  · rintro ⟨hne, hnr, hso, hnc⟩
    have hlen : 0 < s.bufferedData.length := List.length_pos.mpr hne
    simp only [bufferTimeoutFire, harm, if_pos]
    rw [if_pos ⟨hlen, hnr⟩]
    simp [closeServer, hso, hnc]
  · intro hcase
    simp only [bufferTimeoutFire, harm, if_pos]
    rw [if_neg]
    rintro ⟨hlen, hnr⟩
    rcases hcase with hemp | hconn
    · simp [hemp] at hlen
    · simp [hconn] at hnr

/-- Witness for `buffer_deadline_fire` at a concrete armed state with one
    buffered frame and a still-connecting upstream. -/
theorem buffer_deadline_fire_witness :
    (bufferTimeoutFire
        { initState with bufferTimeout := true, bufferedData := [Frame.text "a"] }).serverClosedWith
      = some (CloseKind.coded 1011 "upstream_connection_timeout") :=
  ((buffer_deadline_fire
      { initState with bufferTimeout := true, bufferedData := [Frame.text "a"] }
      rfl).1 (by decide)).2.1

/-! ### C4: upstream-ready flush -/

/-- C4: on the upstream `open` event the ready flag is set and the buffer
    deadline is cancelled; when no send of the flush fails (`failIdx` is
    `none` or beyond the queue) every queued frame is delivered to the
    upstream in queue order, the queue is cleared and the keepalive timer
    starts (also when the queue was already empty); when the `i`-th send
    fails, exactly the first `i` queued frames were delivered, the remaining
    queued frames are discarded without retry, the client is closed with
    `(1011, "upstream_ws_error")`, and the keepalive timer is not started. -/
theorem upstream_open_flush (s : SessionState) (failIdx : Option Nat)
    (hconn : s.upstreamState = ReadyState.connecting)
    (hso : s.serverState = ReadyState.opened)
    (hnc : s.serverClosedWith = none) :
    (step s (Event.upstreamOpen failIdx)).isUpstreamConnected = true ∧
    (step s (Event.upstreamOpen failIdx)).bufferTimeout = false ∧
    ((failIdx = none ∨ ∃ i, failIdx = some i ∧ s.bufferedData.length ≤ i) →
      (step s (Event.upstreamOpen failIdx)).upstreamSent
          = s.upstreamSent ++ s.bufferedData.map UpFrame.client ∧
      (step s (Event.upstreamOpen failIdx)).bufferedData = [] ∧
      (step s (Event.upstreamOpen failIdx)).keepaliveTimer = true ∧
      (step s (Event.upstreamOpen failIdx)).serverClosedWith = none) ∧
    (∀ i, failIdx = some i → i < s.bufferedData.length →
      (step s (Event.upstreamOpen failIdx)).upstreamSent
          = s.upstreamSent ++ (s.bufferedData.take i).map UpFrame.client ∧
      (step s (Event.upstreamOpen failIdx)).bufferedData = [] ∧
      (step s (Event.upstreamOpen failIdx)).keepaliveTimer = false ∧
      (step s (Event.upstreamOpen failIdx)).serverClosedWith
          = some (CloseKind.coded 1011 "upstream_ws_error")) := by
  simp only [step, hconn, if_pos, upstreamOpenHandler]
  by_cases hb : 0 < s.bufferedData.length
  · rw [if_pos hb]
    cases failIdx with
    | none =>
        refine ⟨rfl, rfl, ?_, ?_⟩
        · intro _; exact ⟨rfl, rfl, rfl, hnc⟩
        · intro i hi; cases hi
    | some i =>
        dsimp only
        by_cases hil : i < s.bufferedData.length
        · rw [if_pos hil]
          refine ⟨?_, ?_, ?_, ?_⟩
          · simp [closeServer, cleanup, hso]
          · simp [closeServer, cleanup, hso]
          · rintro (h | ⟨j, hj, hjl⟩)
            · cases h
            · cases hj; omega
          · intro j hj _
            cases hj
            simp [closeServer, cleanup, startKeepalive, hso, hnc]
        · rw [if_neg hil]
          refine ⟨rfl, rfl, ?_, ?_⟩
          · intro _; exact ⟨rfl, rfl, rfl, hnc⟩
          · intro j hj hjl; cases hj; omega
  · rw [if_neg hb]
    have hbe : s.bufferedData = [] := by
      cases hdata : s.bufferedData with
      | nil => rfl
      | cons a l => rw [hdata] at hb; simp at hb
    refine ⟨rfl, rfl, ?_, ?_⟩
    · intro _
      simp [startKeepalive, hbe, hnc]
    · intro i _ hil
      rw [hbe] at hil; simp at hil

/-- Witness for `upstream_open_flush`: a clean flush of one buffered frame. -/
theorem upstream_open_flush_witness :
    (step { initState with bufferedData := [Frame.text "a"] }
        (Event.upstreamOpen none)).upstreamSent
      = [UpFrame.client (Frame.text "a")] ∧
    (step { initState with bufferedData := [Frame.text "a"] }
        (Event.upstreamOpen none)).keepaliveTimer = true := by
  have h := (upstream_open_flush { initState with bufferedData := [Frame.text "a"] }
    none rfl rfl rfl).2.2.1 (Or.inl rfl)
  exact ⟨h.1, h.2.2.1⟩

/-! ### C5: terminal event propagation -/

/-- C5: a client `close` event runs teardown and then closes the upstream
    gracefully (a no-argument `close()`); a client `error` event runs teardown
    and closes the upstream with `(1011, "client_ws_error")`; an upstream
    `close` event resets the ready flag, runs teardown and closes the client
    gracefully; an upstream `error` event resets the ready flag, runs teardown
    and closes the client with `(1011, "upstream_ws_error")`.  Each handler is
    a total function of the state — the modelled `try { close } catch { }`
    cannot propagate an error out of the handler. -/
theorem terminal_event_propagation (s : SessionState)
    (hu : s.upstreamState ≠ ReadyState.closed) (huc : s.upstreamClosedWith = none)
    (hs : s.serverState ≠ ReadyState.closed) (hsc : s.serverClosedWith = none) :
    ((step s Event.clientClose).cleanupRan = true ∧
     (step s Event.clientClose).upstreamClosedWith = some CloseKind.graceful) ∧
    ((step s Event.clientError).cleanupRan = true ∧
     (step s Event.clientError).upstreamClosedWith
        = some (CloseKind.coded 1011 "client_ws_error")) ∧
    ((step s Event.upstreamClose).isUpstreamConnected = false ∧
     (step s Event.upstreamClose).cleanupRan = true ∧
     (step s Event.upstreamClose).serverClosedWith = some CloseKind.graceful) ∧
    ((step s Event.upstreamError).isUpstreamConnected = false ∧
     (step s Event.upstreamError).cleanupRan = true ∧
     (step s Event.upstreamError).serverClosedWith
        = some (CloseKind.coded 1011 "upstream_ws_error")) := by
  refine ⟨⟨?_, ?_⟩, ⟨?_, ?_⟩, ⟨?_, ?_, ?_⟩, ⟨?_, ?_, ?_⟩⟩ <;>
    simp [step, serverCloseHandler, serverErrorHandler, upstreamCloseHandler,
      upstreamErrorHandler, closeServer, closeUpstream, cleanup, hu, huc, hs, hsc]

/-- Witness for `terminal_event_propagation` at the initial session state. -/
theorem terminal_event_propagation_witness :
    (step initState Event.clientClose).upstreamClosedWith = some CloseKind.graceful :=
  ((terminal_event_propagation initState (by decide) rfl (by decide) rfl).1).2

/-! ### C9: upstream frames toward a non-open client are dropped -/

/-- C9: a frame received from the upstream while the client connection is not
    open is silently dropped — the state is completely unchanged: nothing is
    buffered, nothing is retried, nothing terminates.  When the client is
    open, a successful send appends the frame to the client's delivery log and
    changes nothing else, and only a failing send is fatal: it runs teardown
    and closes the upstream with `(1011, "client_ws_error")`.  (This is
    asymmetric with the client-to-upstream direction, which buffers up to
    `MAX_BUFFER_SIZE` frames while the upstream is not ready.) -/
theorem upstream_frame_drop (s : SessionState) (f : Frame) (ok : Bool)
    (hus : s.upstreamState = ReadyState.opened)
    (huc : s.upstreamClosedWith = none) :
    (s.serverState ≠ ReadyState.opened → step s (Event.upstreamMsg f ok) = s) ∧
    (s.serverState = ReadyState.opened → ok = true →
      step s (Event.upstreamMsg f ok) = { s with serverSent := s.serverSent ++ [f] }) ∧
    (s.serverState = ReadyState.opened → ok = false →
      (step s (Event.upstreamMsg f ok)).cleanupRan = true ∧
      (step s (Event.upstreamMsg f ok)).upstreamClosedWith
          = some (CloseKind.coded 1011 "client_ws_error") ∧
      (step s (Event.upstreamMsg f ok)).upstreamState = ReadyState.closed) := by
  refine ⟨?_, ?_, ?_⟩
  · intro hns
    simp [step, hus, upstreamMessageHandler, hns]
  · intro hso hok
    simp [step, hus, upstreamMessageHandler, hso, hok]
  · intro hso hok
    simp [step, hus, upstreamMessageHandler, hso, hok, closeUpstream, cleanup, huc]

/-- Witness for `upstream_frame_drop`: with the client side already closed,
    an upstream frame leaves the state untouched. -/
theorem upstream_frame_drop_witness :
    step { initState with upstreamState := ReadyState.opened
                          serverState := ReadyState.closed }
        (Event.upstreamMsg (Frame.text "m") true)
      = { initState with upstreamState := ReadyState.opened
                         serverState := ReadyState.closed } :=
  (upstream_frame_drop
    { initState with upstreamState := ReadyState.opened, serverState := ReadyState.closed }
    (Frame.text "m") true rfl rfl).1 (by decide)

/-! ### C6: keepalive timer invariant -/

/-- Appending one event to a run is one more `step`. -/
theorem run_append_one (es : List Event) (e : Event) :
    run (es ++ [e]) = step (run es) e := by
  simp [run, List.foldl_append]

/-- One step preserves "the keepalive timer is armed only while the
    upstream-ready flag is true". -/
theorem keepalive_armed_imp_ready_step (s : SessionState) (e : Event)
    (h : s.keepaliveTimer = true → s.isUpstreamConnected = true) :
    (step s e).keepaliveTimer = true → (step s e).isUpstreamConnected = true := by
  cases e with
  | upstreamOpen failIdx =>
      cases failIdx <;>
        simp only [step, upstreamOpenHandler, startKeepalive, cleanup, closeServer] <;>
        split_ifs <;> simp_all
  | clientMsg f ok =>
      simp only [step, serverMessageHandler, cleanup, closeServer]
      split_ifs <;> simp_all
  | upstreamMsg f ok =>
      simp only [step, upstreamMessageHandler, cleanup, closeUpstream]
      split_ifs <;> simp_all
  | bufferDeadline =>
      simp only [step, bufferTimeoutFire, closeServer]
      split_ifs <;> simp_all
  | keepalive ok =>
      simp only [step, keepaliveTick, clearKeepalive]
      split_ifs <;> simp_all
  | clientClose =>
      simp only [step, serverCloseHandler, cleanup, closeUpstream]
      split_ifs <;> simp_all
  | clientError =>
      simp only [step, serverErrorHandler, cleanup, closeUpstream]
      split_ifs <;> simp_all
  | upstreamClose =>
      simp only [step, upstreamCloseHandler, cleanup, closeServer]
      split_ifs <;> simp_all
  | upstreamError =>
      simp only [step, upstreamErrorHandler, cleanup, closeServer]
      split_ifs <;> simp_all

/-- C6 counterexample: the claimed iff — keepalive armed exactly when the
    upstream-ready flag is true and teardown has not run — is false.  After
    `upstream open` followed by a keepalive tick whose send throws, the code
    disarms the keepalive (src/index.ts:114-115) while `isUpstreamConnected`
    is still true and `cleanup` has never run. -/
theorem keepalive_iff_cex :
    ¬ (∀ es : List Event,
        ((run es).keepaliveTimer = true ↔
          ((run es).isUpstreamConnected = true ∧ (run es).cleanupRan = false))) := by
  intro h
  have h2 := (h [Event.upstreamOpen none, Event.keepalive false]).mpr (by decide)
  exact absurd h2 (by decide)

/-- C6 amended: between event-handler executions the keepalive timer is armed
    only if the upstream-ready flag is true (so no keepalive frame is ever
    sent before the upstream is ready: a keepalive tick that changes the
    upstream send log presupposes the ready flag).  The converse fails: a
    failed keepalive send, or a tick finding the upstream not open, disarms
    the timer while the flag stays true and no teardown has run. -/
theorem keepalive_armed_only_if_ready (es : List Event) (ok : Bool) :
    ((run es).keepaliveTimer = true → (run es).isUpstreamConnected = true) ∧
    ((run (es ++ [Event.keepalive ok])).upstreamSent ≠ (run es).upstreamSent →
      (run es).isUpstreamConnected = true) := by
  have hmain : (run es).keepaliveTimer = true → (run es).isUpstreamConnected = true := by
    have := fold_pres (fun s => s.keepaliveTimer = true → s.isUpstreamConnected = true)
      keepalive_armed_imp_ready_step es initState (by intro h; simp [initState] at h)
    exact this
  refine ⟨hmain, ?_⟩
  intro hne
  rw [run_append_one] at hne
  by_cases harm : (run es).keepaliveTimer = true
  · exact hmain harm
  · exfalso
    apply hne
    simp [step, keepaliveTick, harm]

/-- Witness for `keepalive_armed_only_if_ready`: right after the upstream
    `open` event the timer is armed and the flag is indeed true. -/
theorem keepalive_armed_only_if_ready_witness :
    (run [Event.upstreamOpen none]).isUpstreamConnected = true :=
  (keepalive_armed_only_if_ready [Event.upstreamOpen none] true).1 (by decide)

/-! ### C7: buffer-deadline timer invariant -/

/-- One step preserves "the buffer-deadline timer is armed only while the
    queue is non-empty and the upstream is not available for live
    forwarding". -/
theorem buffer_timer_step (s : SessionState) (e : Event)
    (h : s.bufferTimeout = true →
      (s.bufferedData ≠ [] ∧
        ¬ (s.isUpstreamConnected = true ∧ s.upstreamState = ReadyState.opened))) :
    (step s e).bufferTimeout = true →
      ((step s e).bufferedData ≠ [] ∧
        ¬ ((step s e).isUpstreamConnected = true ∧
            (step s e).upstreamState = ReadyState.opened)) := by
  cases e with
  | upstreamOpen failIdx =>
      cases failIdx <;>
        simp only [step, upstreamOpenHandler, startKeepalive, cleanup, closeServer] <;>
        split_ifs <;> simp_all
  | clientMsg f ok =>
      simp only [step, serverMessageHandler, cleanup, closeServer]
      split_ifs <;> simp_all
  | upstreamMsg f ok =>
      simp only [step, upstreamMessageHandler, cleanup, closeUpstream]
      split_ifs <;> simp_all
  | bufferDeadline =>
      simp only [step, bufferTimeoutFire, closeServer]
      split_ifs <;> simp_all
  | keepalive ok =>
      simp only [step, keepaliveTick, clearKeepalive]
      split_ifs <;> simp_all
  | clientClose =>
      simp only [step, serverCloseHandler, cleanup, closeUpstream]
      split_ifs <;> simp_all
  | clientError =>
      simp only [step, serverErrorHandler, cleanup, closeUpstream]
      split_ifs <;> simp_all
  | upstreamClose =>
      simp only [step, upstreamCloseHandler, cleanup, closeServer]
      split_ifs <;> simp_all
  | upstreamError =>
      simp only [step, upstreamErrorHandler, cleanup, closeServer]
      split_ifs <;> simp_all

/-- C7 counterexample: the claimed iff — buffer-deadline timer armed exactly
    when the queue is non-empty and the upstream-ready flag is false — is
    false.  After the upstream opens, a frame toward the client whose
    `server.send` throws makes the handler run `cleanup` and close the
    upstream, leaving `isUpstreamConnected` true; a following client frame is
    then buffered (the upstream socket is no longer OPEN) and arms the
    deadline timer, so the timer is armed while the ready flag is true. -/
theorem buffer_timer_iff_cex :
    ¬ (∀ es : List Event,
        ((run es).bufferTimeout = true ↔
          ((run es).bufferedData ≠ [] ∧ (run es).isUpstreamConnected = false))) := by
  intro h
  have h2 := (h [Event.upstreamOpen none, Event.upstreamMsg (Frame.text "r") false,
      Event.clientMsg (Frame.text "q") true]).mp (by decide)
  exact absurd h2.2 (by decide)

/-- C7 amended: between event-handler executions the buffer-deadline timer is
    armed only if the pending queue is non-empty and the upstream is not
    available for live forwarding (not both flag-ready and socket-open).  The
    biconditional of the claim fails: the timer can be armed while the
    upstream-ready flag is still true (after a fatal client-direction send
    error), and a deadline that fires in that state is consumed without
    clearing the still non-empty queue. -/
theorem buffer_timer_armed_only_if (es : List Event)
    (h : (run es).bufferTimeout = true) :
    (run es).bufferedData ≠ [] ∧
    ¬ ((run es).isUpstreamConnected = true ∧
        (run es).upstreamState = ReadyState.opened) := by
  have := fold_pres
    (fun s => s.bufferTimeout = true →
      (s.bufferedData ≠ [] ∧
        ¬ (s.isUpstreamConnected = true ∧ s.upstreamState = ReadyState.opened)))
    buffer_timer_step es initState (by intro hh; simp [initState] at hh)
  exact this h

/-- Witness for `buffer_timer_armed_only_if`: one pre-ready client frame arms
    the timer, and indeed the queue is non-empty and the upstream is not
    live. -/
theorem buffer_timer_armed_only_if_witness :
    (run [Event.clientMsg (Frame.text "a") true]).bufferedData ≠ [] :=
  (buffer_timer_armed_only_if [Event.clientMsg (Frame.text "a") true] (by decide)).1

/-! ### C1: client-to-upstream ordering -/

/-- Reflexivity of the list prefix relation, in the explicit form used here. -/
theorem pre_refl {α : Type} (l : List α) : l <+: l :=
  ⟨[], List.append_nil l⟩

/-- The inductive invariant tying a session state to the frames the client
    has sent so far (`fs`):
    1. once the upstream socket is OPEN the ready flag is set and the buffer
       is empty (live forwarding never coexists with a non-empty buffer);
    2. once the client socket is no longer open the buffer is empty;
    3. while the client socket is open, the client frames delivered upstream
       followed by the still-buffered frames are exactly the frames sent;
    4. in every state, the client frames delivered upstream followed by the
       buffered frames form a prefix of the frames sent. -/
def InvState (s : SessionState) (fs : List Frame) : Prop :=
  (s.upstreamState = ReadyState.opened →
      s.isUpstreamConnected = true ∧ s.bufferedData = []) ∧
  (s.serverState ≠ ReadyState.opened → s.bufferedData = []) ∧
  (s.serverState = ReadyState.opened →
      deliveredClients s.upstreamSent ++ s.bufferedData = fs) ∧
  (deliveredClients s.upstreamSent ++ s.bufferedData <+: fs)

/-- One event delivery preserves the ordering invariant. -/
theorem step_inv (s : SessionState) (e : Event) (fs : List Frame)
    (h : InvState s fs) : InvState (step s e) (fs ++ evFrames e) := by
  obtain ⟨h1, h2, h3, h4⟩ := h
  cases e with
  | upstreamOpen failIdx =>
    simp only [evFrames, List.append_nil, step]
    by_cases hg : s.upstreamState = ReadyState.connecting
    · rw [if_pos hg]
      simp only [upstreamOpenHandler]
      by_cases hb : 0 < s.bufferedData.length
      · rw [if_pos hb]
        have hbne : s.bufferedData ≠ [] := by
          intro hq; rw [hq] at hb; simp at hb
        have hso : s.serverState = ReadyState.opened := by
          by_contra hq; exact hbne (h2 hq)
        have heq := h3 hso
        have hnsc : ¬ s.serverState = ReadyState.closed := by simp [hso]
        cases failIdx with
        | none =>
            refine ⟨fun _ => ⟨rfl, rfl⟩, fun _ => rfl, ?_, ?_⟩
            · intro _; simp [startKeepalive, heq]
            · exact ⟨[], by simp [startKeepalive, heq]⟩
        | some i =>
            dsimp only
            by_cases hil : i < s.bufferedData.length
            · rw [if_pos hil]
              simp only [closeServer, cleanup]
              rw [if_neg hnsc]
              refine ⟨fun _ => ⟨rfl, rfl⟩, fun _ => rfl, ?_, ?_⟩
              · intro hq; simp at hq
              · exact ⟨s.bufferedData.drop i, by simp [List.take_append_drop, heq]⟩
            · rw [if_neg hil]
              refine ⟨fun _ => ⟨rfl, rfl⟩, fun _ => rfl, ?_, ?_⟩
              · intro _; simp [startKeepalive, heq]
              · exact ⟨[], by simp [startKeepalive, heq]⟩
      · rw [if_neg hb]
        have hbe : s.bufferedData = [] := by
          cases hdata : s.bufferedData with
          | nil => rfl
          | cons a l => rw [hdata] at hb; simp at hb
        exact ⟨fun _ => ⟨rfl, hbe⟩, fun _ => hbe, h3, h4⟩
    · rw [if_neg hg]; exact ⟨h1, h2, h3, h4⟩
  | clientMsg f ok =>
    simp only [evFrames, step]
    by_cases hgs : s.serverState = ReadyState.opened
    · rw [if_pos hgs]
      have hnsc : ¬ s.serverState = ReadyState.closed := by simp [hgs]
      simp only [serverMessageHandler]
      by_cases hlive : s.isUpstreamConnected = true ∧ s.upstreamState = ReadyState.opened
      · rw [if_pos hlive]
        have hbe : s.bufferedData = [] := (h1 hlive.2).2
        have heq : deliveredClients s.upstreamSent = fs := by
          have hx := h3 hgs; rw [hbe, List.append_nil] at hx; exact hx
        by_cases hok : ok = true
        · rw [if_pos hok]
          refine ⟨fun _ => ⟨hlive.1, hbe⟩, fun hq => absurd hgs hq, ?_, ?_⟩
          · intro _; simp [hbe, heq]
          · exact ⟨[], by simp [hbe, heq]⟩
        · rw [if_neg hok]
          simp only [closeServer, cleanup]
          rw [if_neg hnsc]
          refine ⟨fun hop => ⟨(h1 hop).1, rfl⟩, fun _ => rfl, ?_, ?_⟩
          · intro hq; simp at hq
          · exact ⟨[f], by simp [heq]⟩
      · rw [if_neg hlive]
        by_cases hov : MAX_BUFFER_SIZE ≤ s.bufferedData.length
        · rw [if_pos hov]
          simp only [closeServer, cleanup]
          rw [if_neg hnsc]
          refine ⟨fun hop => ⟨(h1 hop).1, rfl⟩, fun _ => rfl, ?_, ?_⟩
          · intro hq; simp at hq
          · exact ⟨s.bufferedData ++ [f], by simp [← List.append_assoc, h3 hgs]⟩
        · rw [if_neg hov]
          refine ⟨?_, fun hq => absurd hgs hq, ?_, ?_⟩
          · intro hop; exact absurd ⟨(h1 hop).1, hop⟩ hlive
          · intro _; simp [← List.append_assoc, h3 hgs]
          · exact ⟨[], by simp [← List.append_assoc, h3 hgs]⟩
    · rw [if_neg hgs]
      exact ⟨h1, h2, fun hq => absurd hq hgs, pre_extend h4 [f]⟩
  | upstreamMsg f ok =>
    simp only [evFrames, List.append_nil, step]
    by_cases hg : s.upstreamState = ReadyState.opened
    · rw [if_pos hg]
      have hbe : s.bufferedData = [] := (h1 hg).2
      have hnuc : ¬ s.upstreamState = ReadyState.closed := by simp [hg]
      simp only [upstreamMessageHandler]
      by_cases hso : s.serverState = ReadyState.opened
      · rw [if_pos hso]
        by_cases hok : ok = true
        · rw [if_pos hok]
          exact ⟨fun hop => ⟨(h1 hop).1, hbe⟩, fun hq => absurd hso hq, h3, h4⟩
        · rw [if_neg hok]
          simp only [closeUpstream, cleanup]
          rw [if_neg hnuc]
          refine ⟨?_, fun hq => absurd hso hq, ?_, ?_⟩
          · intro hq; simp at hq
          · intro _; have hx := h3 hso; rw [hbe, List.append_nil] at hx; simp [hx]
          · have hx := h3 hso; rw [hbe, List.append_nil] at hx
            exact ⟨[], by simp [hx]⟩
      · rw [if_neg hso]; exact ⟨h1, h2, h3, h4⟩
    · rw [if_neg hg]; exact ⟨h1, h2, h3, h4⟩
  | bufferDeadline =>
    simp only [evFrames, List.append_nil, step, bufferTimeoutFire]
    by_cases harm : s.bufferTimeout = true
    · rw [if_pos harm]
      by_cases hcond : 0 < s.bufferedData.length ∧ s.isUpstreamConnected = false
      · rw [if_pos hcond]
        simp only [closeServer]
        obtain ⟨t, ht⟩ := h4
        by_cases hsc : s.serverState = ReadyState.closed
        · rw [if_pos hsc]
          refine ⟨fun hop => ⟨(h1 hop).1, rfl⟩, fun _ => rfl, ?_, ?_⟩
          · intro hq; rw [hsc] at hq; simp at hq
          · exact ⟨s.bufferedData ++ t, by simpa using ht⟩
        · rw [if_neg hsc]
          refine ⟨fun hop => ⟨(h1 hop).1, rfl⟩, fun _ => rfl, ?_, ?_⟩
          · intro hq; simp at hq
          · exact ⟨s.bufferedData ++ t, by simpa using ht⟩
      · rw [if_neg hcond]
        exact ⟨h1, h2, h3, h4⟩
    · rw [if_neg harm]; exact ⟨h1, h2, h3, h4⟩
  | keepalive ok =>
    simp only [evFrames, List.append_nil, step, keepaliveTick]
    by_cases harm : s.keepaliveTimer = true
    · rw [if_pos harm]
      by_cases hop : s.upstreamState = ReadyState.opened
      · rw [if_pos hop]
        by_cases hok : ok = true
        · rw [if_pos hok]
          refine ⟨fun _ => ⟨(h1 hop).1, (h1 hop).2⟩, h2, ?_, ?_⟩
          · intro hso; simpa using h3 hso
          · obtain ⟨t, ht⟩ := h4; exact ⟨t, by simpa using ht⟩
        · rw [if_neg hok]; exact ⟨h1, h2, h3, h4⟩
      · rw [if_neg hop]; exact ⟨h1, h2, h3, h4⟩
    · rw [if_neg harm]; exact ⟨h1, h2, h3, h4⟩
  | clientClose =>
    simp only [evFrames, List.append_nil, step, serverCloseHandler, closeUpstream, cleanup]
    obtain ⟨t, ht⟩ := h4
    by_cases huc : s.upstreamState = ReadyState.closed
    · rw [if_pos huc]
      refine ⟨?_, fun _ => rfl, ?_, ?_⟩
      · intro hop; rw [huc] at hop; simp at hop
      · intro hq; simp at hq
      · exact ⟨s.bufferedData ++ t, by simpa using ht⟩
    · rw [if_neg huc]
      refine ⟨?_, fun _ => rfl, ?_, ?_⟩
      · intro hop; simp at hop
      · intro hq; simp at hq
      · exact ⟨s.bufferedData ++ t, by simpa using ht⟩
  | clientError =>
    simp only [evFrames, List.append_nil, step, serverErrorHandler, closeUpstream, cleanup]
    obtain ⟨t, ht⟩ := h4
    by_cases huc : s.upstreamState = ReadyState.closed
    · rw [if_pos huc]
      refine ⟨?_, fun _ => rfl, ?_, ?_⟩
      · intro hop; rw [huc] at hop; simp at hop
      · intro hq; simp at hq
      · exact ⟨s.bufferedData ++ t, by simpa using ht⟩
    · rw [if_neg huc]
      refine ⟨?_, fun _ => rfl, ?_, ?_⟩
      · intro hop; simp at hop
      · intro hq; simp at hq
      · exact ⟨s.bufferedData ++ t, by simpa using ht⟩
  | upstreamClose =>
    simp only [evFrames, List.append_nil, step, upstreamCloseHandler, closeServer, cleanup]
    obtain ⟨t, ht⟩ := h4
    by_cases hsc : s.serverState = ReadyState.closed
    · rw [if_pos hsc]
      refine ⟨?_, fun _ => rfl, ?_, ?_⟩
      · intro hop; simp at hop
      · intro hq; rw [hsc] at hq; simp at hq
      · exact ⟨s.bufferedData ++ t, by simpa using ht⟩
    · rw [if_neg hsc]
      refine ⟨?_, fun _ => rfl, ?_, ?_⟩
      · intro hop; simp at hop
      · intro hq; simp at hq
      · exact ⟨s.bufferedData ++ t, by simpa using ht⟩
  | upstreamError =>
    simp only [evFrames, List.append_nil, step, upstreamErrorHandler, closeServer, cleanup]
    obtain ⟨t, ht⟩ := h4
    by_cases hsc : s.serverState = ReadyState.closed
    · rw [if_pos hsc]
      refine ⟨?_, fun _ => rfl, ?_, ?_⟩
      · intro hop; simp at hop
      · intro hq; rw [hsc] at hq; simp at hq
      · exact ⟨s.bufferedData ++ t, by simpa using ht⟩
    · rw [if_neg hsc]
      refine ⟨?_, fun _ => rfl, ?_, ?_⟩
      · intro hop; simp at hop
      · intro hq; simp at hq
      · exact ⟨s.bufferedData ++ t, by simpa using ht⟩

/-- The invariant holds along any whole fold of `step`. -/
theorem inv_fold (es : List Event) :
    ∀ (s : SessionState) (fs : List Frame), InvState s fs →
      InvState (es.foldl step s) (fs ++ clientFrames es) := by
  induction es with
  | nil => intro s fs h; simpa [clientFrames] using h
  | cons e es ih =>
      intro s fs h
      have hstep := step_inv s e fs h
      have hrest := ih (step s e) (fs ++ evFrames e) hstep
      simpa [clientFrames, List.append_assoc] using hrest

/-- The invariant holds of every run from the initial state. -/
theorem inv_run (es : List Event) : InvState (run es) (clientFrames es) := by
  have h0 : InvState initState [] := by
    refine ⟨?_, fun _ => rfl, fun _ => rfl, pre_refl []⟩
    intro hq; simp [initState] at hq
  have hx := inv_fold es initState [] h0
  simpa [run] using hx

/-- C1: across any whole session the client frames delivered to the upstream
    are an initial segment, in order, of the frames the client sent: all
    frames buffered before upstream-ready are flushed first in arrival order,
    and no frame forwarded live after upstream-ready is ever delivered ahead
    of a still-buffered frame — live forwarding is gated on the ready flag,
    which the message handler only observes after the queue was drained. -/
theorem client_order_preserved (es : List Event) :
    deliveredClients (run es).upstreamSent <+: clientFrames es := by
  obtain ⟨-, -, -, h4⟩ := inv_run es
  obtain ⟨t, ht⟩ := h4
  exact ⟨(run es).bufferedData ++ t, by simpa using ht⟩

end RpcProxy
